import Mathlib

/-
Verification development for the GEPA visual-similarity Evaluator
(file src/gepa_metrics.py of the repository under study).

The Python source is shallowly embedded:
  * Python strings are lists of characters (Str below); the Python
    operations s.split(sep)[0] and s.split(sep)[1] are embedded through
    splitFirst? (first occurrence of a separator), and str.strip through
    pyStrip.
  * numpy float vectors are lists of rationals; np.dot is dot, the
    squared np.linalg.norm is sumsq, and np.linalg.norm itself is npNorm
    (a real number, since it takes a square root).
  * effectful library calls (os.makedirs, file writes, subprocess.run,
    os.path.exists, the vision encoder) are oracles collected in a World
    structure; a raised Python exception is an Except.error result.
-/

/-- Str abbreviates List Char: the embedding of a Python str. -/
abbrev Str := List Char

/-- Decomposition of s at the first occurrence of pat: some (b, a) with
s = b ++ pat ++ a and b shortest, none when pat does not occur in s.
This embeds the behaviour of the Python str.split chain used in the
source: s.split(pat)[0] is b (or s when pat is absent), and the text
after the first occurrence is a. -/
def splitFirst? (pat : Str) : Str → Option (Str × Str)
  | [] => if pat <+: ([] : Str) then some ([], []) else none
  | c :: cs =>
    if pat <+: (c :: cs) then some ([], (c :: cs).drop pat.length)
    else
      match splitFirst? pat cs with
      | some (b, a) => some (c :: b, a)
      | none => none

/-- Embedding of Python s.split(pat)[0]: the text before the first
occurrence of pat, or all of s when pat does not occur. -/
def beforeFirst (s pat : Str) : Str :=
  match splitFirst? pat s with
  | some (b, _) => b
  | none => s

/-- Text after the first occurrence of pat in s (s itself when pat does
not occur; the source only uses it under an occurrence guard). Python
s.split(pat)[1] is beforeFirst (afterFirst s pat) pat. -/
def afterFirst (s pat : Str) : Str :=
  match splitFirst? pat s with
  | some (_, a) => a
  | none => s

/-- Whitespace test of Python str.strip (ASCII whitespace). -/
def pySpace (c : Char) : Bool :=
  c == (' ') || c == ('\t') || c == ('\n') || c == ('\r') ||
    c == (Char.ofNat 11) || c == (Char.ofNat 12)

/-- Embedding of Python str.strip(): drop ASCII whitespace from both
ends. -/
def pyStrip (s : Str) : Str :=
  ((s.dropWhile pySpace).reverse.dropWhile pySpace).reverse

/-- Characters of the fence marker, three backticks. -/
def fenceChars : Str := "```".data

/-- Characters of the language-tagged opening fence the source tests for
(Python in-operator check for a python-tagged fence). -/
def pyFenceTag : Str := "```python".data

/-- Characters of a backtick followed by the tagged fence; its absence
rules out an overlap between a closing fence and a further tagged
fence. -/
def pyQuad : Str := "````python".data

/-- Embedding of the code-extraction block of GEPAMetrics.metric
(source lines 134 to 141):
  if three-backticks-python occurs: split on it, take element 1, split
  that on three backticks, take element 0, strip;
  elif three backticks occur: split on them, take element 0, strip;
  else the whole response text. -/
def extractCode (program_code : Str) : Str :=
  if pyFenceTag <:+: program_code then
    pyStrip (beforeFirst (beforeFirst (afterFirst program_code pyFenceTag) pyFenceTag) fenceChars)
  else if fenceChars <:+: program_code then
    pyStrip (beforeFirst program_code fenceChars)
  else program_code

/-- Specification-side extractor for the tagged-fence case, following
the words of the spec: the content between the opening tagged fence and
the first subsequent closing fence, trimmed. -/
def specTaggedExtract (s : Str) : Str :=
  pyStrip (beforeFirst (afterFirst s pyFenceTag) fenceChars)

/-- Specification-side extractor for the untagged case, following the
words of the spec: the content before the first fence marker, trimmed. -/
def specUntaggedExtract (s : Str) : Str :=
  pyStrip (beforeFirst s fenceChars)

/-- splitFirst? really decomposes the string at an occurrence of the
pattern. -/
theorem splitFirst?_decomp {pat s b a : Str}
    (h : splitFirst? pat s = some (b, a)) : s = b ++ pat ++ a := by
  induction s generalizing b a with
  | nil =>
    by_cases hp : pat <+: ([] : Str)
    · have hpe : pat = [] := List.prefix_nil.mp hp
      simp [splitFirst?, hp] at h
      simp [hpe, h.1, h.2]
    · simp [splitFirst?, hp] at h
  | cons c cs ih =>
    by_cases hp : pat <+: (c :: cs)
    · simp [splitFirst?, hp] at h
      obtain ⟨u, hu⟩ := hp
      have ha : a = u := by rw [← h.2, ← hu, List.drop_left]
      rw [h.1, ha, ← hu]
      simp
    · simp only [splitFirst?, if_neg hp] at h
      cases hcs : splitFirst? pat cs with
      | none => rw [hcs] at h; exact absurd h (by simp)
      | some p =>
        obtain ⟨b0, a0⟩ := p
        rw [hcs] at h
        simp at h
        have := ih hcs
        rw [← h.1, ← h.2]
        simp [this]

/-- The decomposition of splitFirst? is at the first occurrence: any
other decomposition has a longer or equal leading part. -/
theorem splitFirst?_first {pat s b a : Str}
    (h : splitFirst? pat s = some (b, a)) :
    ∀ b' a', s = b' ++ pat ++ a' → b.length ≤ b'.length := by
  induction s generalizing b a with
  | nil =>
    intro b' a' hd
    by_cases hp : pat <+: ([] : Str)
    · simp [splitFirst?, hp] at h
      simp [h.1]
    · simp [splitFirst?, hp] at h
  | cons c cs ih =>
    intro b' a' hd
    by_cases hp : pat <+: (c :: cs)
    · simp [splitFirst?, hp] at h
      simp [h.1]
    · simp only [splitFirst?, if_neg hp] at h
      cases hcs : splitFirst? pat cs with
      | none => rw [hcs] at h; exact absurd h (by simp)
      | some p =>
        obtain ⟨b0, a0⟩ := p
        rw [hcs] at h
        simp at h
        cases b' with
        | nil =>
          exfalso
          apply hp
          exact ⟨a', by simpa using hd.symm⟩
        | cons c' b'' =>
          simp at hd
          have := ih hcs b'' a' (by simpa using hd.2)
          simp [← h.1]
          omega

/-- splitFirst? finds an occurrence exactly when the pattern occurs as a
substring. -/
theorem splitFirst?_isSome_iff {pat s : Str} :
    (splitFirst? pat s).isSome ↔ pat <:+: s := by
  induction s with
  | nil =>
    by_cases hp : pat <+: ([] : Str)
    · have hpe : pat = [] := List.prefix_nil.mp hp
      simp [splitFirst?, hp, hpe]
    · have hpe : pat ≠ [] := fun he => hp (by simp [he])
      simp [splitFirst?, hp, hpe]
  | cons c cs ih =>
    by_cases hp : pat <+: (c :: cs)
    · simp [splitFirst?, hp, hp.isInfix]
    · simp only [splitFirst?, if_neg hp]
      rw [List.infix_cons_iff]
      simp only [hp, false_or]
      rw [← ih]
      cases hcs : splitFirst? pat cs with
      | none => simp
      | some p => simp

/-- beforeFirst is the identity when the pattern does not occur. -/
theorem beforeFirst_of_not_occ {s pat : Str} (h : ¬ pat <:+: s) :
    beforeFirst s pat = s := by
  have : splitFirst? pat s = none := by
    cases hs : splitFirst? pat s with
    | none => rfl
    | some p => exact absurd (splitFirst?_isSome_iff.mp (by simp [hs])) h
  simp [beforeFirst, this]

/-- afterFirst is the identity when the pattern does not occur. -/
theorem afterFirst_of_not_occ {s pat : Str} (h : ¬ pat <:+: s) :
    afterFirst s pat = s := by
  have : splitFirst? pat s = none := by
    cases hs : splitFirst? pat s with
    | none => rfl
    | some p => exact absurd (splitFirst?_isSome_iff.mp (by simp [hs])) h
  simp [afterFirst, this]

/-- beforeFirst yields the empty string when the pattern is already a
leading part of the string. -/
theorem beforeFirst_of_pref {s pat : Str} (h : pat <+: s) :
    beforeFirst s pat = [] := by
  cases s with
  | nil => have := List.prefix_nil.mp h; simp [beforeFirst, splitFirst?, h]
  | cons c cs => simp [beforeFirst, splitFirst?, h]

/-- Unfolding of beforeFirst over a head character the pattern does not
start at. -/
theorem beforeFirst_cons {c : Char} {cs pat : Str} (h : ¬ pat <+: (c :: cs)) :
    beforeFirst (c :: cs) pat = c :: beforeFirst cs pat := by
  simp only [beforeFirst, splitFirst?, if_neg h]
  cases hcs : splitFirst? pat cs with
  | none => simp
  | some p => obtain ⟨b, a⟩ := p; simp

/-- beforeFirst always yields a leading part of the string. -/
theorem beforeFirst_pref (s pat : Str) : beforeFirst s pat <+: s := by
  cases hs : splitFirst? pat s with
  | none => simp [beforeFirst, hs]
  | some p =>
    obtain ⟨b, a⟩ := p
    have hd := splitFirst?_decomp hs
    have hb : beforeFirst s pat = b := by simp [beforeFirst, hs]
    rw [hb, hd]
    exact ⟨pat ++ a, by simp⟩

/-- afterFirst always yields a trailing part of the string. -/
theorem afterFirst_suff (s pat : Str) : afterFirst s pat <:+ s := by
  cases hs : splitFirst? pat s with
  | none => simp [afterFirst, hs]
  | some p =>
    obtain ⟨b, a⟩ := p
    have hd := splitFirst?_decomp hs
    have ha : afterFirst s pat = a := by simp [afterFirst, hs]
    rw [ha, hd]
    exact ⟨b ++ pat, by simp⟩

/-- Character constant: a single backtick. -/
def btChar : Char := ("`".data).headD (' ')

theorem fence_eq3 : fenceChars = btChar :: btChar :: btChar :: [] := by decide

theorem quad_eq : pyQuad = btChar :: pyFenceTag := by decide

theorem fence_pref_tag : fenceChars <+: pyFenceTag := by decide

/-- Key structural lemma: on a text with no overlap of a closing fence
and a further tagged fence (no four-backticks-python substring), cutting
the text at the next tagged fence first does not change the text before
the first closing fence. This is exactly the gap between the split chain
of the source and the wording of the spec. -/
theorem beforeFirst_tag_cancel : ∀ t : Str, ¬ pyQuad <:+: t →
    beforeFirst (beforeFirst t pyFenceTag) fenceChars = beforeFirst t fenceChars := by
  intro t
  induction t with
  | nil => intro _; decide
  | cons c cs ih =>
    intro hq
    have hqcs : ¬ pyQuad <:+: cs := fun h => hq (h.trans (List.suffix_cons c cs).isInfix)
    by_cases hfp : pyFenceTag <+: (c :: cs)
    · rw [beforeFirst_of_pref hfp]
      rw [beforeFirst_of_pref (fence_pref_tag.trans hfp)]
      decide
    · rw [beforeFirst_cons hfp]
      by_cases hf : fenceChars <+: (c :: cs)
      · rw [beforeFirst_of_pref hf]
        obtain ⟨u, hu⟩ := hf
        rw [fence_eq3] at hu
        simp only [List.cons_append, List.nil_append] at hu
        have hc : c = btChar := by
          have := hu
          injection this with h1 _
          exact h1.symm
        have hcs : cs = btChar :: btChar :: u := by
          injection hu with _ h2
          exact h2.symm
        subst hc
        subst hcs
        have h1 : ¬ pyFenceTag <+: (btChar :: btChar :: u) := by
          intro hpre
          apply hq
          have : pyQuad <+: (btChar :: btChar :: btChar :: u) := by
            rw [quad_eq]
            exact List.cons_prefix_cons.mpr ⟨rfl, hpre⟩
          exact this.isInfix
        have h2 : ¬ pyFenceTag <+: (btChar :: u) := by
          intro hpre
          apply hqcs
          have : pyQuad <+: (btChar :: btChar :: u) := by
            rw [quad_eq]
            exact List.cons_prefix_cons.mpr ⟨rfl, hpre⟩
          exact this.isInfix
        rw [beforeFirst_cons h1, beforeFirst_cons h2]
        have : fenceChars <+: (btChar :: btChar :: btChar :: beforeFirst u pyFenceTag) := by
          rw [fence_eq3]
          exact ⟨beforeFirst u pyFenceTag, by simp⟩
        rw [beforeFirst_of_pref this]
      · rw [beforeFirst_cons hf]
        have hnot : ¬ fenceChars <+: (c :: beforeFirst cs pyFenceTag) := by
          intro hcontra
          exact hf (hcontra.trans
            (List.cons_prefix_cons.mpr ⟨rfl, beforeFirst_pref cs pyFenceTag⟩))
        rw [beforeFirst_cons hnot, ih hqcs]

/-- Embedding of np.dot on two 1-D float vectors (elementwise product
summed; vectors produced by one encoder share a length). -/
def dot : List ℚ → List ℚ → ℚ
  | a :: as, b :: bs => a * b + dot as bs
  | _, _ => 0

/-- Sum of squared entries of a vector: the square of np.linalg.norm. -/
def sumsq (l : List ℚ) : ℚ := dot l l

/-- Embedding of np.linalg.norm: the euclidean norm, a real number. -/
noncomputable def npNorm (l : List ℚ) : ℝ := Real.sqrt ((sumsq l : ℚ) : ℝ)

theorem dot_nil_right : ∀ a : List ℚ, dot a [] = 0 := by
  intro a; cases a <;> rfl

theorem dot_nil_left (b : List ℚ) : dot [] b = 0 := rfl

theorem sumsq_nil : sumsq ([] : List ℚ) = 0 := rfl

theorem sumsq_cons (a : ℚ) (as : List ℚ) : sumsq (a :: as) = a * a + sumsq as := rfl

theorem sumsq_nonneg : ∀ l : List ℚ, 0 ≤ sumsq l := by
  intro l
  induction l with
  | nil => simp [sumsq, dot]
  | cons a as ih =>
    have : sumsq (a :: as) = a * a + sumsq as := rfl
    rw [this]
    nlinarith [sq_nonneg a]

/-- The mixed square expansion is nonnegative (an instance of the sum of
squares of cross terms). -/
theorem cross_nonneg (x y : ℚ) :
    ∀ (a b : List ℚ), 0 ≤ x ^ 2 * sumsq b - 2 * x * y * dot a b + y ^ 2 * sumsq a := by
  intro a
  induction a with
  | nil =>
    intro b
    have h1 : dot ([] : List ℚ) b = 0 := rfl
    have h2 : sumsq ([] : List ℚ) = 0 := rfl
    rw [h1, h2]
    nlinarith [sumsq_nonneg b, sq_nonneg x]
  | cons p as ih =>
    intro b
    cases b with
    | nil =>
      rw [dot_nil_right, sumsq_nil]
      nlinarith [sumsq_nonneg (p :: as), sq_nonneg y]
    | cons q bs =>
      have h1 : dot (p :: as) (q :: bs) = p * q + dot as bs := rfl
      have h2 : sumsq (p :: as) = p * p + sumsq as := rfl
      have h3 : sumsq (q :: bs) = q * q + sumsq bs := rfl
      rw [h1, h2, h3]
      nlinarith [ih bs, sq_nonneg (x * q - y * p)]

/-- Cauchy-Schwarz for the embedded dot product and squared norms. -/
theorem dot_sq_le_sumsq_mul : ∀ (a b : List ℚ), (dot a b) ^ 2 ≤ sumsq a * sumsq b := by
  intro a
  induction a with
  | nil =>
    intro b
    rw [dot_nil_left, sumsq_nil]
    simp
  | cons p as ih =>
    intro b
    cases b with
    | nil =>
      rw [dot_nil_right, sumsq_nil]
      simp
    | cons q bs =>
      have h1 : dot (p :: as) (q :: bs) = p * q + dot as bs := rfl
      have h2 : sumsq (p :: as) = p * p + sumsq as := rfl
      have h3 : sumsq (q :: bs) = q * q + sumsq bs := rfl
      rw [h1, h2, h3]
      nlinarith [ih bs, cross_nonneg p q as bs, sumsq_nonneg as, sumsq_nonneg bs]

/-- The norm of an embedding vector vanishes exactly when the rational
sum of squares vanishes; this ties the zero-norm guard of the source
(norm equality with 0 on floats) to the decidable rational guard used in
the embedding of compute_similarity. -/
theorem npNorm_eq_zero_iff (l : List ℚ) : npNorm l = 0 ↔ sumsq l = 0 := by
  unfold npNorm
  rw [Real.sqrt_eq_zero (by exact_mod_cast sumsq_nonneg l)]
  constructor
  · intro h; exact_mod_cast h
  · intro h; exact_mod_cast congrArg (fun q : ℚ => (q : ℝ)) h

/-- Message constants of GEPAMetrics.compute_similarity. -/
def failedImagesMsg : String := "Failed to process one or both images."

def zeroNormMsg : String := "Zero norm embedding encountered."

def successMsg : String := "Success"

/-- Embedding of GEPAMetrics.compute_similarity (source lines 61 to 76).
The encoder pipeline GEPAMetrics._get_embedding (source lines 29 to 59)
is the oracle getEmb: it yields none exactly when its input cannot be
resolved and decoded into an image (the source then returns None), and
otherwise the pooled feature vector of the external encoder. Images are
referenced by path, URL or wrapper, embedded as an opaque String
reference. The zero-norm guard of the source compares the float norms
with 0; by npNorm_eq_zero_iff this is the rational test sumsq = 0 used
here. The defined branch returns the cosine similarity: the dot product
divided by the product of the two norms. -/
noncomputable def compute_similarity (getEmb : String → Option (List ℚ))
    (image1 image2 : String) : ℝ × String :=
  match getEmb image1, getEmb image2 with
  | some emb1, some emb2 =>
    if sumsq emb1 = 0 ∨ sumsq emb2 = 0 then ((0 : ℝ), zeroNormMsg)
    else (((dot emb1 emb2 : ℚ) : ℝ) / (npNorm emb1 * npNorm emb2), successMsg)
  | _, _ => ((0 : ℝ), failedImagesMsg)

/-- Definedness of the similarity of a pair of images: both embeddings
exist and neither has zero norm (the spec-side notion of a defined
similarity value). -/
def simDefined (getEmb : String → Option (List ℚ)) (image1 image2 : String) : Prop :=
  ∃ e1 e2, getEmb image1 = some e1 ∧ getEmb image2 = some e2 ∧
    sumsq e1 ≠ 0 ∧ sumsq e2 ≠ 0

/-- The message component is the success constant exactly on defined
pairs. -/
theorem compute_similarity_success_iff (getEmb : String → Option (List ℚ))
    (image1 image2 : String) :
    (compute_similarity getEmb image1 image2).2 = successMsg ↔
      simDefined getEmb image1 image2 := by
  unfold compute_similarity simDefined
  cases h1 : getEmb image1 with
  | none =>
    simp [failedImagesMsg, successMsg]
  | some e1 =>
    cases h2 : getEmb image2 with
    | none =>
      simp [failedImagesMsg, successMsg]
    | some e2 =>
      by_cases hz : sumsq e1 = 0 ∨ sumsq e2 = 0
      · simp only [hz, if_true]
        constructor
        · intro h; exact absurd h (by decide)
        · rintro ⟨f1, f2, hf1, hf2, hn1, hn2⟩
          obtain rfl := Option.some_inj.mp hf1
          obtain rfl := Option.some_inj.mp hf2
          exact absurd hz (by tauto)
      · simp only [hz, if_false]
        push_neg at hz
        constructor
        · intro _; exact ⟨e1, e2, rfl, rfl, hz.1, hz.2⟩
        · intro _; trivial

/-- Bounds for the defined cosine similarity: the dot product divided by
the product of the norms lies between -1 and 1 (Cauchy-Schwarz). -/
theorem cosine_bounds {e1 e2 : List ℚ} (h1 : sumsq e1 ≠ 0) (h2 : sumsq e2 ≠ 0) :
    -1 ≤ ((dot e1 e2 : ℚ) : ℝ) / (npNorm e1 * npNorm e2) ∧
      ((dot e1 e2 : ℚ) : ℝ) / (npNorm e1 * npNorm e2) ≤ 1 := by
  have hA : (0 : ℝ) < ((sumsq e1 : ℚ) : ℝ) := by
    have hq : 0 < sumsq e1 := lt_of_le_of_ne (sumsq_nonneg e1) (Ne.symm h1)
    exact_mod_cast hq
  have hB : (0 : ℝ) < ((sumsq e2 : ℚ) : ℝ) := by
    have hq : 0 < sumsq e2 := lt_of_le_of_ne (sumsq_nonneg e2) (Ne.symm h2)
    exact_mod_cast hq
  have hprod : npNorm e1 * npNorm e2 =
      Real.sqrt (((sumsq e1 : ℚ) : ℝ) * ((sumsq e2 : ℚ) : ℝ)) := by
    unfold npNorm
    rw [Real.sqrt_mul (le_of_lt hA)]
  have hpos : 0 < npNorm e1 * npNorm e2 := by
    rw [hprod]
    exact Real.sqrt_pos.mpr (by positivity)
  have hcs : (((dot e1 e2 : ℚ) : ℝ)) ^ 2 ≤ ((sumsq e1 : ℚ) : ℝ) * ((sumsq e2 : ℚ) : ℝ) := by
    exact_mod_cast dot_sq_le_sumsq_mul e1 e2
  have habs : |((dot e1 e2 : ℚ) : ℝ)| ≤ npNorm e1 * npNorm e2 := by
    rw [hprod, ← Real.sqrt_sq_eq_abs]
    exact Real.sqrt_le_sqrt hcs
  constructor
  · rw [le_div_iff₀ hpos]
    have := (abs_le.mp habs).1
    linarith
  · rw [div_le_one hpos]
    exact (abs_le.mp habs).2

/-- Embedded Python value, as far as the pid-extraction logic observes
it: the source compares a value against None and the empty string and
otherwise renders it with str. -/
inductive PyVal where
  | pyNone
  | pyStr (s : String)
  | pyInt (n : Int)

/-- Embedding of the Python membership test value not in (None, ""). -/
def notNoneOrEmpty : PyVal → Bool
  | PyVal.pyNone => false
  | PyVal.pyStr s => !(s == "")
  | PyVal.pyInt _ => true

/-- Embedding of Python str(value). -/
def pyStrOf : PyVal → String
  | PyVal.pyNone => "None"
  | PyVal.pyStr s => s
  | PyVal.pyInt n => toString n

/-- Embedded example object, exposing exactly what
GEPAMetrics._extract_pid and GEPAMetrics.metric observe: an optional
get method (present iff hasattr(example, get); a call may raise, which
the source swallows), plain attribute lookup with a None default, the
optional _store dict (present iff the attribute exists and is a dict),
and the image attribute read at source line 189. -/
structure ExampleObj where
  get? : Option (String → Except String PyVal)
  attr : String → PyVal
  store? : Option (String → PyVal)
  image : String

/-- Key list probed by GEPAMetrics._extract_pid. -/
def idKeys : List String := ["pid", "id", "example_id"]

/-- One loop iteration of _extract_pid over a key: first the get-method
probe (exceptions become None), then the attribute probe; some rendered
value when a probe found a value not in (None, ""). -/
def tryKey (ex : ExampleObj) (key : String) : Option String :=
  (match ex.get? with
   | some g =>
     match g key with
     | Except.ok v => if notNoneOrEmpty v then some (pyStrOf v) else none
     | Except.error _ => none
   | none => none) <|>
  (if notNoneOrEmpty (ex.attr key) then some (pyStrOf (ex.attr key)) else none)

/-- Embedding of GEPAMetrics._extract_pid (source lines 78 to 102). -/
def extract_pid (exmpl : Option ExampleObj) (default : String) : String :=
  match exmpl with
  | none => default
  | some ex =>
    match idKeys.findSome? (tryKey ex) with
    | some s => s
    | none =>
      match ex.store? with
      | some st =>
        match idKeys.findSome?
            (fun key => if notNoneOrEmpty (st key) then some (pyStrOf (st key)) else none) with
        | some s => s
        | none => default
      | none => default

/-- A run id source is absent: the example is None, or none of the keys
yields a value outside (None, "") through the get method, attribute
lookup or the _store dict. -/
def noRunId : Option ExampleObj → Prop
  | none => True
  | some ex =>
    ∀ key ∈ idKeys,
      (∀ g, ex.get? = some g → ∀ v, g key = Except.ok v → notNoneOrEmpty v = false) ∧
      notNoneOrEmpty (ex.attr key) = false ∧
      (∀ st, ex.store? = some st → notNoneOrEmpty (st key) = false)

/-- Embedding of os.path.join on POSIX for the two-argument uses of the
source (second argument absolute replaces the first). -/
def pathJoin (a b : String) : String :=
  if ("/").data.isPrefixOf b.data then b else a ++ "/" ++ b

/-- Path of the executable script written by _write_generate_scripts
(source line 111). -/
def generateScriptPath (run_dir : String) : String := pathJoin run_dir ("generate.py")

/-- Path of the canonical output artifact (source line 177). -/
def artifactPath (run_dir : String) : String := pathJoin run_dir ("image.png")

/-- Outcome of the subprocess.run call in _run_generate_script: a
timeout (subprocess.TimeoutExpired with its timeout value), another
raised exception (message and traceback), or a completed process with
return code and captured streams. -/
inductive RunOutcome where
  | timedOut (t : ℚ)
  | raised (e tb : String)
  | completed (returncode : Int) (stdout stderr : String)

/-- Environment oracle for one metric call: the configured similarity
threshold, the outcomes of the effectful library calls, the embedding
oracle of _get_embedding, and the numeric renderings used inside
f-strings (showSim for the .4f format of the similarity, showQ for the
str rendering of threshold and timeout values). -/
structure World where
  similarity_threshold : ℚ
  mkdir : String → Except String Unit
  writeScripts : Except (String × String) Unit
  runScript : RunOutcome
  artifactExists : Bool
  getEmb : String → Option (List ℚ)
  showSim : ℝ → String
  showQ : ℚ → String

/-- Returned judgement: dspy.Prediction(score=..., feedback=...). -/
structure ScoreResult where
  score : Int
  feedback : String

/-- Input prediction object: getattr(prediction, program-attribute, "")
yields the empty string when the attribute is missing. -/
structure PredictionIn where
  program : Option String

/-- Feedback constant of the empty-extraction outcome. -/
def noCodeMsg : String := "No code found in the prediction."

/-- Embedding of the scoring stage of GEPAMetrics.metric (source lines
189 to 200): compute the similarity of the reference image and the
generated artifact, pass iff the similarity is at least the threshold,
and build the feedback text (threshold and reason appear only in the
failing branch; the succeeding branch appends the success marker). -/
noncomputable def scoringResult (w : World) (image1 image2 : String) : ScoreResult :=
  let sm := compute_similarity w.getEmb image1 image2
  let score : Int := if (w.similarity_threshold : ℝ) ≤ sm.1 then 1 else 0
  ⟨score, "Similarity Score: " ++ w.showSim sm.1 ++
    (if score = 0 then
      "\nThreshold is " ++ w.showQ w.similarity_threshold ++
        ". Evaluation failed. Reason: " ++ sm.2
     else "\nSuccess!")⟩

/-- Embedding of GEPAMetrics.metric (source lines 131 to 200). A raised
Python exception that escapes the method is an Except.error value. The
os.makedirs call of source line 149 is outside every try block, so its
failure escapes; the try blocks around the script write and the script
run convert failures into returned results. When the scoring stage is
reached with example None, the attribute access example.image of source
line 189 raises. -/
noncomputable def metric (w : World) (exmpl : Option ExampleObj)
    (prediction : PredictionIn) : Except String ScoreResult :=
  let program_code := prediction.program.getD ("")
  let code := extractCode program_code.data
  if code.isEmpty then Except.ok ⟨0, noCodeMsg⟩
  else
    let pid := extract_pid exmpl ("unknown")
    let run_dir := pathJoin ("runs") pid
    match w.mkdir run_dir with
    | Except.error e => Except.error e
    | Except.ok _ =>
      match w.writeScripts with
      | Except.error et =>
        Except.ok ⟨0, "Failed to write generate.py: " ++ et.1 ++ "\nTraceback: " ++ et.2⟩
      | Except.ok _ =>
        match w.runScript with
        | RunOutcome.timedOut t =>
          Except.ok ⟨0, "generate.py timed out after " ++ w.showQ t ++ "s."⟩
        | RunOutcome.raised e tb =>
          Except.ok ⟨0, "Failed to run generate.py: " ++ e ++ "\nTraceback: " ++ tb⟩
        | RunOutcome.completed rc out err =>
          if rc ≠ 0 then
            Except.ok ⟨0, "generate.py failed.\nReturn code: " ++ toString rc ++
              "\nSTDOUT:\n" ++ out ++ "\nSTDERR:\n" ++ err⟩
          else
            let generated_image_path := artifactPath run_dir
            if ¬ w.artifactExists then
              Except.ok ⟨0, "generate.py ran but did not produce runs/<pid>/image.png.\n" ++
                "Make sure your code saves the output image as image.png in the current working directory.\n" ++
                "STDOUT:\n" ++ out ++ "\nSTDERR:\n" ++ err⟩
            else
              match exmpl with
              | none => Except.error "AttributeError: NoneType object has no attribute image"
              | some ex =>
                Except.ok (scoringResult w ex.image generated_image_path)

/-- Claim C5, counterexample. On the response text of backtick fences
shown below, the extractor of the source returns a lone backtick, while
the content between the opening tagged fence and the first subsequent
closing fence (the wording of the claim, embedded as specTaggedExtract)
is empty: the split chain of the source first truncates the text at the
next occurrence of the tagged fence, which here overlaps the closing
fence. -/
theorem extractCode_tagged_cex :
    extractCode (("```python````python").data) = ("`").data ∧
    specTaggedExtract (("```python````python").data) = [] := by
  constructor
  · decide
  · decide

/-- Claim C5, amended. For every response text in which the tagged fence
occurs and no four-backtick overlap with a further tagged fence occurs,
the extractor returns exactly the content between the first tagged fence
and the first subsequent closing fence, trimmed (specTaggedExtract). -/
theorem extractCode_tagged_spec (s : Str)
    (hocc : pyFenceTag <:+: s) (hq : ¬ pyQuad <:+: s) :
    extractCode s = specTaggedExtract s := by
  unfold extractCode specTaggedExtract
  rw [if_pos hocc]
  have hq2 : ¬ pyQuad <:+: afterFirst s pyFenceTag :=
    fun h => hq (h.trans (afterFirst_suff s pyFenceTag).isInfix)
  rw [beforeFirst_tag_cancel _ hq2]

/-- Witness for the amended claim C5 at a concrete fenced response. -/
theorem extractCode_tagged_spec_witness :
    (pyFenceTag <:+: ("```python\nx = 1\n```\ndone").data) ∧
    ¬ pyQuad <:+: ("```python\nx = 1\n```\ndone").data ∧
    extractCode (("```python\nx = 1\n```\ndone").data) =
      specTaggedExtract (("```python\nx = 1\n```\ndone").data) :=
  ⟨by decide, by decide, extractCode_tagged_spec _ (by decide) (by decide)⟩

/-- Claim C6, confirmed. For every response text with no tagged fence
but with some fence marker, the extractor returns the content strictly
before the first fence marker, trimmed: the text decomposes at a fence
occurrence, the returned part is shortest (hence the occurrence is the
first), and the extraction result is that part stripped. -/
theorem extractCode_untagged_first (s : Str)
    (hno : ¬ pyFenceTag <:+: s) (hf : fenceChars <:+: s) :
    ∃ b a, s = b ++ fenceChars ++ a ∧
      (∀ b' a', s = b' ++ fenceChars ++ a' → b.length ≤ b'.length) ∧
      extractCode s = pyStrip b := by
  obtain ⟨p, hp⟩ := Option.isSome_iff_exists.mp (splitFirst?_isSome_iff.mpr hf)
  obtain ⟨b, a⟩ := p
  refine ⟨b, a, splitFirst?_decomp hp, splitFirst?_first hp, ?_⟩
  unfold extractCode
  rw [if_neg hno, if_pos hf]
  congr 1
  simp [beforeFirst, hp]

/-- Witness for claim C6 at a concrete untagged fenced response. -/
theorem extractCode_untagged_first_witness :
    (¬ pyFenceTag <:+: ("x = 2\n```\nignored").data) ∧
    (fenceChars <:+: ("x = 2\n```\nignored").data) ∧
    (∃ b a, ("x = 2\n```\nignored").data = b ++ fenceChars ++ a ∧
      (∀ b' a', ("x = 2\n```\nignored").data = b' ++ fenceChars ++ a' → b.length ≤ b'.length) ∧
      extractCode (("x = 2\n```\nignored").data) = pyStrip b) :=
  ⟨by decide, by decide, extractCode_untagged_first _ (by decide) (by decide)⟩

/-- Under an absent run id, _extract_pid falls through to its default. -/
theorem extract_pid_default {exo : Option ExampleObj} (h : noRunId exo) :
    extract_pid exo ("unknown") = "unknown" := by
  cases exo with
  | none => rfl
  | some ex =>
    have hfind : idKeys.findSome? (tryKey ex) = none := by
      rw [List.findSome?_eq_none_iff]
      intro key hkey
      have hk := h key hkey
      unfold tryKey
      have hattr : (if notNoneOrEmpty (ex.attr key) then some (pyStrOf (ex.attr key)) else none)
          = none := by
        rw [if_neg]
        rw [hk.2.1]
        simp
      cases hg : ex.get? with
      | none => simp [hattr]
      | some g =>
        cases hgv : g key with
        | error e => simp [hgv, hattr]
        | ok v =>
          have hv := hk.1 g hg v hgv
          simp [hgv, hv, hattr]
    cases hst : ex.store? with
    | none => simp [extract_pid, hfind, hst]
    | some st =>
      have hsf : idKeys.findSome?
          (fun key => if notNoneOrEmpty (st key) then some (pyStrOf (st key)) else none) = none := by
        rw [List.findSome?_eq_none_iff]
        intro key hkey
        have := (h key hkey).2.2 st hst
        simp [this]
      simp [extract_pid, hfind, hst, hsf]

/-- Claim C10, confirmed. For any two evaluations whose examples are
None or carry no non-empty pid, id or example_id (through the get
method, attribute lookup or the internal store), the run id is the
default string unknown, so both evaluations use the single run directory
runs/unknown and the same generate.py and image.png artifact paths. -/
theorem metric_run_dir_collision (ex1 ex2 : Option ExampleObj)
    (h1 : noRunId ex1) (h2 : noRunId ex2) :
    extract_pid ex1 ("unknown") = "unknown" ∧
    extract_pid ex2 ("unknown") = "unknown" ∧
    pathJoin ("runs") (extract_pid ex1 ("unknown")) = "runs/unknown" ∧
    generateScriptPath (pathJoin ("runs") (extract_pid ex1 ("unknown"))) =
      generateScriptPath (pathJoin ("runs") (extract_pid ex2 ("unknown"))) ∧
    artifactPath (pathJoin ("runs") (extract_pid ex1 ("unknown"))) =
      artifactPath (pathJoin ("runs") (extract_pid ex2 ("unknown"))) := by
  have e1 := extract_pid_default h1
  have e2 := extract_pid_default h2
  rw [e1, e2]
  refine ⟨rfl, rfl, ?_, rfl, rfl⟩
  decide

/-- Witness for claim C10: a None example and an example carrying no id
source at all. -/
theorem metric_run_dir_collision_witness :
    noRunId (none : Option ExampleObj) ∧
    noRunId (some ⟨none, fun _ => PyVal.pyNone, none, "ref.png"⟩) ∧
    (extract_pid (none : Option ExampleObj) ("unknown") = "unknown" ∧
     extract_pid (some ⟨none, fun _ => PyVal.pyNone, none, "ref.png"⟩) ("unknown") = "unknown" ∧
     pathJoin ("runs") (extract_pid (none : Option ExampleObj) ("unknown")) = "runs/unknown" ∧
     generateScriptPath (pathJoin ("runs") (extract_pid (none : Option ExampleObj) ("unknown"))) =
       generateScriptPath (pathJoin ("runs")
         (extract_pid (some ⟨none, fun _ => PyVal.pyNone, none, "ref.png"⟩) ("unknown"))) ∧
     artifactPath (pathJoin ("runs") (extract_pid (none : Option ExampleObj) ("unknown"))) =
       artifactPath (pathJoin ("runs")
         (extract_pid (some ⟨none, fun _ => PyVal.pyNone, none, "ref.png"⟩) ("unknown")))) := by
  have hw : noRunId (some (⟨none, fun _ => PyVal.pyNone, none, "ref.png"⟩ : ExampleObj)) := by
    intro key hkey
    refine ⟨?_, rfl, ?_⟩
    · intro g hg; exact Option.noConfusion hg
    · intro st hst; exact Option.noConfusion hst
  exact ⟨trivial, hw, metric_run_dir_collision none (some ⟨none, fun _ => PyVal.pyNone, none, "ref.png"⟩) trivial hw⟩

/-- Helper: value component of an undefined similarity is exactly the
float 0.0. -/
theorem sim_fst_zero_of_not_defined {getEmb : String → Option (List ℚ)} {i1 i2 : String}
    (h : ¬ simDefined getEmb i1 i2) :
    (compute_similarity getEmb i1 i2).1 = 0 := by
  unfold compute_similarity
  cases h1 : getEmb i1 with
  | none => rfl
  | some e1 =>
    cases h2 : getEmb i2 with
    | none => rfl
    | some e2 =>
      by_cases hz : sumsq e1 = 0 ∨ sumsq e2 = 0
      · simp [hz]
      · exact absurd ⟨e1, e2, h1, h2, (not_or.mp hz).1, (not_or.mp hz).2⟩ h

/-- Helper: under success of every directory creation, a metric call
that reaches the scoring stage returns exactly the scoring-stage
result. -/
theorem metric_scoring (w : World) (ex : ExampleObj) (pred : PredictionIn) (out err : String)
    (hcode : (extractCode ((pred.program.getD ("")).data)).isEmpty = false)
    (hmk : w.mkdir (pathJoin ("runs") (extract_pid (some ex) ("unknown"))) = Except.ok ())
    (hwrite : w.writeScripts = Except.ok ())
    (hrun : w.runScript = RunOutcome.completed 0 out err)
    (hart : w.artifactExists = true) :
    metric w (some ex) pred = Except.ok (scoringResult w ex.image
      (artifactPath (pathJoin ("runs") (extract_pid (some ex) ("unknown"))))) := by
  simp only [metric, hcode, hmk, hwrite, hrun, hart]
  simp

/-- Helper: evaluation of compute_similarity on a defined pair. -/
theorem sim_defined_val {getEmb : String → Option (List ℚ)} {i1 i2 : String}
    {e1 e2 : List ℚ} (h1 : getEmb i1 = some e1) (h2 : getEmb i2 = some e2)
    (hn1 : sumsq e1 ≠ 0) (hn2 : sumsq e2 ≠ 0) :
    compute_similarity getEmb i1 i2 =
      (((dot e1 e2 : ℚ) : ℝ) / (npNorm e1 * npNorm e2), successMsg) := by
  unfold compute_similarity
  rw [h1, h2]
  simp [hn1, hn2]

theorem dot_cons (a b : ℚ) (as bs : List ℚ) :
    dot (a :: as) (b :: bs) = a * b + dot as bs := rfl

theorem sumsq_single (x : ℚ) : sumsq [x] = x * x := by
  unfold sumsq
  rw [dot_cons, dot_nil_left, add_zero]

theorem sumsq_pair (x y : ℚ) : sumsq [x, y] = x * x + y * y := by
  unfold sumsq
  rw [dot_cons, dot_cons, dot_nil_left, add_zero]

/-- Embedding oracle that always fails (every input undecodable). -/
def embFail : String → Option (List ℚ) := fun _ => none

/-- Embedding oracle mapping one reference input to one unit vector and
every other input to an orthogonal unit vector. -/
def embOrtho : String → Option (List ℚ) :=
  fun s => if s = ("a" : String) then some [1, 0] else some [0, 1]

/-- Embedding oracle mapping one reference input to a positive vector
and every other input to its opposite. -/
def embOpp : String → Option (List ℚ) :=
  fun s => if s = ("a" : String) then some [1] else some [-1]

/-- Embedding oracle mapping every input to the same unit vector. -/
def embOne : String → Option (List ℚ) := fun _ => some [1]

/-- Claim C2, amended. When either embedding is undefined (the input
cannot be decoded) or either embedding norm is exactly zero, the
similarity value returned by compute_similarity is exactly the float
0.0 (not a distinct undefined value); the failure is signalled only by
the accompanying message, which differs from the success constant. -/
theorem compute_similarity_undefined_marker (getEmb : String → Option (List ℚ))
    (i1 i2 : String)
    (h : getEmb i1 = none ∨ getEmb i2 = none ∨
      (∃ e, getEmb i1 = some e ∧ npNorm e = 0) ∨
      (∃ e, getEmb i2 = some e ∧ npNorm e = 0)) :
    (compute_similarity getEmb i1 i2).1 = 0 ∧
    (compute_similarity getEmb i1 i2).2 ≠ successMsg := by
  have hnd : ¬ simDefined getEmb i1 i2 := by
    rintro ⟨e1, e2, he1, he2, hn1, hn2⟩
    rcases h with h | h | ⟨e, he, hn⟩ | ⟨e, he, hn⟩
    · rw [he1] at h; exact Option.noConfusion h
    · rw [he2] at h; exact Option.noConfusion h
    · rw [he1] at he
      obtain rfl := Option.some_inj.mp he
      exact hn1 ((npNorm_eq_zero_iff e1).mp hn)
    · rw [he2] at he
      obtain rfl := Option.some_inj.mp he
      exact hn2 ((npNorm_eq_zero_iff e2).mp hn)
  exact ⟨sim_fst_zero_of_not_defined hnd,
    fun hs => hnd ((compute_similarity_success_iff getEmb i1 i2).mp hs)⟩

/-- Witness for the amended claim C2 at a concrete undefined pair. -/
theorem compute_similarity_undefined_marker_witness :
    (embFail ("a") = none ∨ embFail ("b") = none ∨
      (∃ e, embFail ("a") = some e ∧ npNorm e = 0) ∨
      (∃ e, embFail ("b") = some e ∧ npNorm e = 0)) ∧
    ((compute_similarity embFail ("a") ("b")).1 = 0 ∧
      (compute_similarity embFail ("a") ("b")).2 ≠ successMsg) :=
  ⟨Or.inl rfl, compute_similarity_undefined_marker embFail ("a") ("b") (Or.inl rfl)⟩

/-- Claim C2, counterexample. The similarity value of an undefined pair
(embedding oracle always failing) equals the similarity value of a
defined orthogonal pair: 0.0 is returned in both, so the value itself
does not distinguish the undefined case; only the messages differ. -/
theorem compute_similarity_undefined_cex :
    (compute_similarity embFail ("a") ("b")).1 =
      (compute_similarity embOrtho ("a") ("b")).1 ∧
    (compute_similarity embFail ("a") ("b")).2 ≠ successMsg ∧
    (compute_similarity embOrtho ("a") ("b")).2 = successMsg := by
  have e1 : embOrtho ("a") = some [(1:ℚ), 0] := rfl
  have e2 : embOrtho ("b") = some [(0:ℚ), 1] := rfl
  have hn1 : sumsq [(1:ℚ), 0] ≠ 0 := by rw [sumsq_pair]; norm_num
  have hn2 : sumsq [(0:ℚ), 1] ≠ 0 := by rw [sumsq_pair]; norm_num
  have hO := sim_defined_val e1 e2 hn1 hn2
  have hL : compute_similarity embFail ("a") ("b") = ((0 : ℝ), failedImagesMsg) := rfl
  refine ⟨?_, ?_, ?_⟩
  · rw [hL, hO]
    have hd : dot [(1:ℚ), 0] [(0:ℚ), 1] = 0 := by
      rw [dot_cons, dot_cons, dot_nil_left]
      norm_num
    rw [hd]
    norm_num
  · rw [hL]; decide
  · rw [hO]

/-- Claim C4, amended. For every defined pair, the similarity value (the
dot product of the embeddings divided by the product of their norms)
lies in the interval from -1 to 1; the interval 0 to 1 of the claim is
too narrow. -/
theorem compute_similarity_defined_bounds (getEmb : String → Option (List ℚ))
    (i1 i2 : String) (h : simDefined getEmb i1 i2) :
    -1 ≤ (compute_similarity getEmb i1 i2).1 ∧
      (compute_similarity getEmb i1 i2).1 ≤ 1 := by
  obtain ⟨e1, e2, h1, h2, hn1, hn2⟩ := h
  rw [sim_defined_val h1 h2 hn1 hn2]
  exact cosine_bounds hn1 hn2

/-- Witness for the amended claim C4 at a concrete defined pair. -/
theorem compute_similarity_defined_bounds_witness :
    simDefined embOne ("a") ("b") ∧
    (-1 ≤ (compute_similarity embOne ("a") ("b")).1 ∧
      (compute_similarity embOne ("a") ("b")).1 ≤ 1) := by
  have hn : sumsq [(1:ℚ)] ≠ 0 := by rw [sumsq_single]; norm_num
  have hdef : simDefined embOne ("a") ("b") := ⟨[1], [1], rfl, rfl, hn, hn⟩
  exact ⟨hdef, compute_similarity_defined_bounds embOne ("a") ("b") hdef⟩

/-- Claim C4, counterexample. A defined pair of opposite embedding
vectors has similarity exactly -1, outside the claimed interval from 0
to 1. -/
theorem compute_similarity_range_cex :
    (compute_similarity embOpp ("a") ("b")).2 = successMsg ∧
    (compute_similarity embOpp ("a") ("b")).1 = -1 := by
  have e1 : embOpp ("a") = some [(1:ℚ)] := rfl
  have e2 : embOpp ("b") = some [(-1:ℚ)] := rfl
  have hn1 : sumsq [(1:ℚ)] ≠ 0 := by rw [sumsq_single]; norm_num
  have hn2 : sumsq [(-1:ℚ)] ≠ 0 := by rw [sumsq_single]; norm_num
  have hO := sim_defined_val e1 e2 hn1 hn2
  refine ⟨?_, ?_⟩
  · rw [hO]
  · rw [hO]
    have hd : dot [(1:ℚ)] [(-1:ℚ)] = -1 := by
      rw [dot_cons, dot_nil_left]
      norm_num
    have hs1 : sumsq [(1:ℚ)] = 1 := by rw [sumsq_single]; norm_num
    have hs2 : sumsq [(-1:ℚ)] = 1 := by rw [sumsq_single]; norm_num
    have hnn1 : npNorm [(1:ℚ)] = 1 := by unfold npNorm; rw [hs1]; simp
    have hnn2 : npNorm [(-1:ℚ)] = 1 := by unfold npNorm; rw [hs2]; simp
    rw [hd, hnn1, hnn2]
    norm_num

/-- Helper: explicit form of the scoring-stage result. -/
theorem scoringResult_eq (w : World) (i1 i2 : String) :
    scoringResult w i1 i2 =
      ⟨(if (w.similarity_threshold : ℝ) ≤ (compute_similarity w.getEmb i1 i2).1 then 1 else 0),
        "Similarity Score: " ++ w.showSim (compute_similarity w.getEmb i1 i2).1 ++
          (if (if (w.similarity_threshold : ℝ) ≤ (compute_similarity w.getEmb i1 i2).1
              then (1 : Int) else 0) = 0 then
            "\nThreshold is " ++ w.showQ w.similarity_threshold ++
              ". Evaluation failed. Reason: " ++ (compute_similarity w.getEmb i1 i2).2
           else "\nSuccess!")⟩ := rfl

/-- Example object with no id information and reference image ref. -/
def exR : ExampleObj := ⟨none, fun _ => PyVal.pyNone, none, "ref"⟩

/-- Prediction carrying one well-formed python-fenced program. -/
def predFenced : PredictionIn := ⟨some ("```python\nx\n```")⟩

/-- World with a zero threshold and a failing embedding oracle; all
directory, write and run operations succeed and the artifact exists. -/
def wZeroThr : World :=
  ⟨0, fun _ => Except.ok (), Except.ok (), RunOutcome.completed 0 ("") (""), true,
    embFail, fun _ => "0.0000", fun _ => "0"⟩

/-- World with the default threshold 0.6 and an embedding oracle that
always yields the same unit vector; all operations succeed. -/
def wPass : World :=
  ⟨3/5, fun _ => Except.ok (), Except.ok (), RunOutcome.completed 0 ("") (""), true,
    embOne, fun _ => "1.0000", fun _ => "0.6"⟩

/-- Claim C3, amended. For every evaluation reaching the scoring stage
whose configured threshold is positive (as the default 0.6 is), the pass
verdict equals: similarity defined and at least the threshold; every
undefined similarity yields score 0. With a non-positive threshold the
undefined case passes, because the undefined similarity value is the
plain float 0.0. -/
theorem metric_pass_iff (w : World) (ex : ExampleObj) (pred : PredictionIn) (out err : String)
    (hthr : 0 < w.similarity_threshold)
    (hcode : (extractCode ((pred.program.getD ("")).data)).isEmpty = false)
    (hmk : w.mkdir (pathJoin ("runs") (extract_pid (some ex) ("unknown"))) = Except.ok ())
    (hwrite : w.writeScripts = Except.ok ())
    (hrun : w.runScript = RunOutcome.completed 0 out err)
    (hart : w.artifactExists = true) :
    ∃ p : ScoreResult, metric w (some ex) pred = Except.ok p ∧
      (p.score = 1 ↔
        (simDefined w.getEmb ex.image
            (artifactPath (pathJoin ("runs") (extract_pid (some ex) ("unknown")))) ∧
          (w.similarity_threshold : ℝ) ≤
            (compute_similarity w.getEmb ex.image
              (artifactPath (pathJoin ("runs") (extract_pid (some ex) ("unknown"))))).1)) ∧
      (¬ simDefined w.getEmb ex.image
          (artifactPath (pathJoin ("runs") (extract_pid (some ex) ("unknown")))) →
        p.score = 0) := by
  have hthrR : (0 : ℝ) < (w.similarity_threshold : ℝ) := by exact_mod_cast hthr
  refine ⟨_, metric_scoring w ex pred out err hcode hmk hwrite hrun hart, ?_, ?_⟩
  · have hsc : (scoringResult w ex.image
        (artifactPath (pathJoin ("runs") (extract_pid (some ex) ("unknown"))))).score =
        (if (w.similarity_threshold : ℝ) ≤
            (compute_similarity w.getEmb ex.image
              (artifactPath (pathJoin ("runs") (extract_pid (some ex) ("unknown"))))).1
          then 1 else 0) := rfl
    rw [hsc]
    by_cases hle : (w.similarity_threshold : ℝ) ≤
        (compute_similarity w.getEmb ex.image
          (artifactPath (pathJoin ("runs") (extract_pid (some ex) ("unknown"))))).1
    · rw [if_pos hle]
      constructor
      · intro _
        refine ⟨?_, hle⟩
        by_contra hnd
        rw [sim_fst_zero_of_not_defined hnd] at hle
        linarith
      · intro _; rfl
    · rw [if_neg hle]
      constructor
      · intro h0; exact absurd h0 (by decide)
      · rintro ⟨_, h⟩; exact absurd h hle
  · intro hnd
    have hsc : (scoringResult w ex.image
        (artifactPath (pathJoin ("runs") (extract_pid (some ex) ("unknown"))))).score =
        (if (w.similarity_threshold : ℝ) ≤
            (compute_similarity w.getEmb ex.image
              (artifactPath (pathJoin ("runs") (extract_pid (some ex) ("unknown"))))).1
          then 1 else 0) := rfl
    rw [hsc, sim_fst_zero_of_not_defined hnd, if_neg (by linarith)]

/-- Witness for the amended claim C3 at a concrete passing evaluation. -/
theorem metric_pass_iff_witness :
    (0 : ℚ) < wPass.similarity_threshold ∧
    (extractCode ((predFenced.program.getD ("")).data)).isEmpty = false ∧
    wPass.mkdir (pathJoin ("runs") (extract_pid (some exR) ("unknown"))) = Except.ok () ∧
    wPass.writeScripts = Except.ok () ∧
    wPass.runScript = RunOutcome.completed 0 ("") ("") ∧
    wPass.artifactExists = true ∧
    (∃ p : ScoreResult, metric wPass (some exR) predFenced = Except.ok p ∧
      (p.score = 1 ↔
        (simDefined wPass.getEmb exR.image
            (artifactPath (pathJoin ("runs") (extract_pid (some exR) ("unknown")))) ∧
          (wPass.similarity_threshold : ℝ) ≤
            (compute_similarity wPass.getEmb exR.image
              (artifactPath (pathJoin ("runs") (extract_pid (some exR) ("unknown"))))).1)) ∧
      (¬ simDefined wPass.getEmb exR.image
          (artifactPath (pathJoin ("runs") (extract_pid (some exR) ("unknown")))) →
        p.score = 0)) := by
  refine ⟨by norm_num [wPass], by decide, rfl, rfl, rfl, rfl, ?_⟩
  exact metric_pass_iff wPass exR predFenced ("") ("")
    (by norm_num [wPass]) (by decide) rfl rfl rfl rfl

/-- Claim C3, counterexample. With threshold 0 and an undefined
similarity (failing embedding oracle), the metric passes with score 1:
an undefined similarity does not force a failing verdict. -/
theorem metric_pass_iff_cex :
    metric wZeroThr (some exR) predFenced =
      Except.ok ⟨1, "Similarity Score: 0.0000\nSuccess!"⟩ ∧
    ¬ simDefined wZeroThr.getEmb exR.image
        (artifactPath (pathJoin ("runs") (extract_pid (some exR) ("unknown")))) := by
  constructor
  · rw [metric_scoring wZeroThr exR predFenced ("") ("") (by decide) rfl rfl rfl rfl]
    have hsm : compute_similarity wZeroThr.getEmb exR.image
        (artifactPath (pathJoin ("runs") (extract_pid (some exR) ("unknown")))) =
        ((0 : ℝ), failedImagesMsg) := rfl
    have hle : (wZeroThr.similarity_threshold : ℝ) ≤
        (compute_similarity wZeroThr.getEmb exR.image
          (artifactPath (pathJoin ("runs") (extract_pid (some exR) ("unknown"))))).1 := by
      rw [hsm]
      norm_num [wZeroThr]
    have hres : scoringResult wZeroThr exR.image
        (artifactPath (pathJoin ("runs") (extract_pid (some exR) ("unknown")))) =
        ⟨1, "Similarity Score: 0.0000\nSuccess!"⟩ := by
      rw [scoringResult_eq, if_pos hle, if_neg (by decide : ¬ ((1 : Int) = 0))]
      rfl
    rw [hres]
  · rintro ⟨e1, e2, h, _⟩
    exact Option.noConfusion h

/-- World whose directory creation fails (for instance the runs entry
exists as a file, or permissions are missing). -/
def wMkdirFail : World :=
  ⟨3/5, fun _ => Except.error "PermissionError: Permission denied: runs", Except.ok (),
    RunOutcome.completed 0 ("") (""), true, embOne, fun _ => "", fun _ => ""⟩

/-- World whose script run exits non-zero with captured stderr. -/
def wFailRun : World :=
  ⟨3/5, fun _ => Except.ok (), Except.ok (), RunOutcome.completed 1 ("") ("boom"), true,
    embOne, fun _ => "", fun _ => ""⟩

/-- World whose script run times out after 60 seconds. -/
def wTimeout : World :=
  ⟨3/5, fun _ => Except.ok (), Except.ok (), RunOutcome.timedOut 60, true,
    embOne, fun _ => "", fun _ => "60"⟩

/-- Claim C1, amended. Provided the unguarded directory creation of
source line 149 succeeds (and the example is present), every metric call
returns exactly one result, with score 0 or 1, whatever the outcomes of
extraction, script write, script run, artifact check and encoder are; a
directory-creation failure, by contrast, escapes the method as an
exception. -/
theorem metric_total_result (w : World) (ex : ExampleObj) (pred : PredictionIn)
    (hmk : ∀ d, w.mkdir d = Except.ok ()) :
    ∃ p : ScoreResult, metric w (some ex) pred = Except.ok p ∧
      (p.score = 0 ∨ p.score = 1) := by
  cases hc : (extractCode ((pred.program.getD ("")).data)).isEmpty with
  | true =>
    refine ⟨⟨0, noCodeMsg⟩, ?_, Or.inl rfl⟩
    simp only [metric, hc]
    simp
  | false =>
    cases hw : w.writeScripts with
    | error et =>
      refine ⟨⟨0, "Failed to write generate.py: " ++ et.1 ++ "\nTraceback: " ++ et.2⟩,
        ?_, Or.inl rfl⟩
      simp only [metric, hc, hmk, hw]
      simp
    | ok u =>
      cases u
      cases hr : w.runScript with
      | timedOut t =>
        refine ⟨⟨0, "generate.py timed out after " ++ w.showQ t ++ "s."⟩, ?_, Or.inl rfl⟩
        simp only [metric, hc, hmk, hw, hr]
        simp
      | raised e tb =>
        refine ⟨⟨0, "Failed to run generate.py: " ++ e ++ "\nTraceback: " ++ tb⟩,
          ?_, Or.inl rfl⟩
        simp only [metric, hc, hmk, hw, hr]
        simp
      | completed rc out err =>
        by_cases hrc : rc = 0
        · subst hrc
          cases ha : w.artifactExists with
          | false =>
            refine ⟨⟨0, "generate.py ran but did not produce runs/<pid>/image.png.\n" ++
              "Make sure your code saves the output image as image.png in the current working directory.\n" ++
              "STDOUT:\n" ++ out ++ "\nSTDERR:\n" ++ err⟩, ?_, Or.inl rfl⟩
            simp only [metric, hc, hmk, hw, hr, ha]
            simp
          | true =>
            refine ⟨scoringResult w ex.image
              (artifactPath (pathJoin ("runs") (extract_pid (some ex) ("unknown")))),
              metric_scoring w ex pred out err hc (hmk _) hw hr ha, ?_⟩
            by_cases hle : (w.similarity_threshold : ℝ) ≤
                (compute_similarity w.getEmb ex.image
                  (artifactPath (pathJoin ("runs") (extract_pid (some ex) ("unknown"))))).1
            · right
              show (if (w.similarity_threshold : ℝ) ≤
                  (compute_similarity w.getEmb ex.image
                    (artifactPath (pathJoin ("runs") (extract_pid (some ex) ("unknown"))))).1
                then (1 : Int) else 0) = 1
              rw [if_pos hle]
            · left
              show (if (w.similarity_threshold : ℝ) ≤
                  (compute_similarity w.getEmb ex.image
                    (artifactPath (pathJoin ("runs") (extract_pid (some ex) ("unknown"))))).1
                then (1 : Int) else 0) = 0
              rw [if_neg hle]
        · refine ⟨⟨0, "generate.py failed.\nReturn code: " ++ toString rc ++
            "\nSTDOUT:\n" ++ out ++ "\nSTDERR:\n" ++ err⟩, ?_, Or.inl rfl⟩
          simp only [metric, hc, hmk, hw, hr]
          simp [hrc]

/-- Witness for the amended claim C1 at a concrete world whose directory
creation succeeds. -/
theorem metric_total_result_witness :
    (∀ d, wPass.mkdir d = Except.ok ()) ∧
    (∃ p : ScoreResult, metric wPass (some exR) predFenced = Except.ok p ∧
      (p.score = 0 ∨ p.score = 1)) :=
  ⟨fun _ => rfl, metric_total_result wPass exR predFenced (fun _ => rfl)⟩

/-- Claim C1, counterexample. When the unguarded os.makedirs of source
line 149 fails, the exception escapes the metric boundary instead of
being converted into a score-0 result: the call yields an error, not a
returned judgement. -/
theorem metric_raises_cex :
    metric wMkdirFail (some exR) predFenced =
      Except.error "PermissionError: Permission denied: runs" := by
  have hc : (extractCode ((predFenced.program.getD ("")).data)).isEmpty = false := by decide
  simp [metric, hc]
  rfl

/-- Claim C7, amended. Whenever the extraction result is empty (which,
because the fenced branches strip their content, covers whitespace-only
fenced content), the metric returns score 0 with the no-code feedback,
independently of every sandbox oracle: no directory creation, write or
run outcome can influence the result, so no process spawn is attempted.
A whitespace-only response without any fence, however, is executed
as-is. -/
theorem metric_no_code (w : World) (exmpl : Option ExampleObj) (pred : PredictionIn)
    (h : extractCode ((pred.program.getD ("")).data) = []) :
    metric w exmpl pred = Except.ok ⟨0, noCodeMsg⟩ := by
  simp only [metric, h]
  simp

/-- Witness for the amended claim C7: an empty response and a response
whose python fence holds only whitespace both yield the no-code
result. -/
theorem metric_no_code_witness :
    extractCode (((⟨some ("")⟩ : PredictionIn).program.getD ("")).data) = [] ∧
    extractCode (((⟨some ("```python   ```")⟩ : PredictionIn).program.getD ("")).data) = [] ∧
    metric wPass none ⟨some ("")⟩ = Except.ok ⟨0, noCodeMsg⟩ ∧
    metric wFailRun none ⟨some ("```python   ```")⟩ = Except.ok ⟨0, noCodeMsg⟩ :=
  ⟨by decide, by decide,
    metric_no_code wPass none ⟨some ("")⟩ (by decide),
    metric_no_code wFailRun none ⟨some ("```python   ```")⟩ (by decide)⟩

/-- Claim C7, counterexample. A whitespace-only response with no fence
has a whitespace-only (non-empty) extraction result, and the metric goes
on to write and execute it: the result depends on the run outcome (a
non-zero exit and a timeout world give different feedback) and is not
the no-code result. -/
theorem metric_whitespace_cex :
    extractCode (((⟨some (" ")⟩ : PredictionIn).program.getD ("")).data) = (" ").data ∧
    metric wFailRun (some exR) ⟨some (" ")⟩ =
      Except.ok ⟨0, "generate.py failed.\nReturn code: 1\nSTDOUT:\n\nSTDERR:\nboom"⟩ ∧
    metric wTimeout (some exR) ⟨some (" ")⟩ =
      Except.ok ⟨0, "generate.py timed out after 60s."⟩ ∧
    metric wFailRun (some exR) ⟨some (" ")⟩ ≠ Except.ok ⟨0, noCodeMsg⟩ := by
  have hc : (extractCode (((⟨some (" ")⟩ : PredictionIn).program.getD ("")).data)).isEmpty
      = false := by decide
  have hA : metric wFailRun (some exR) ⟨some (" ")⟩ =
      Except.ok ⟨0, "generate.py failed.\nReturn code: 1\nSTDOUT:\n\nSTDERR:\nboom"⟩ := by
    simp only [metric, hc]
    simp
    rfl
  have hB : metric wTimeout (some exR) ⟨some (" ")⟩ =
      Except.ok ⟨0, "generate.py timed out after 60s."⟩ := by
    simp only [metric, hc]
    simp
    rfl
  refine ⟨by decide, hA, hB, ?_⟩
  rw [hA]
  intro hcontra
  simp [noCodeMsg] at hcontra

/-- Claim C8, confirmed. For every run that completes with a non-zero
exit code, the metric returns score 0 and the feedback contains the exit
code, the captured stdout and the captured stderr verbatim (each occurs
as a substring of the feedback text). -/
theorem metric_nonzero_exit (w : World) (exmpl : Option ExampleObj) (pred : PredictionIn)
    (rc : Int) (out err : String)
    (hcode : (extractCode ((pred.program.getD ("")).data)).isEmpty = false)
    (hmk : ∀ d, w.mkdir d = Except.ok ())
    (hwrite : w.writeScripts = Except.ok ())
    (hrun : w.runScript = RunOutcome.completed rc out err)
    (hrc : rc ≠ 0) :
    metric w exmpl pred = Except.ok ⟨0,
      "generate.py failed.\nReturn code: " ++ toString rc ++
        "\nSTDOUT:\n" ++ out ++ "\nSTDERR:\n" ++ err⟩ ∧
    (toString rc).data <:+: ("generate.py failed.\nReturn code: " ++ toString rc ++
        "\nSTDOUT:\n" ++ out ++ "\nSTDERR:\n" ++ err).data ∧
    out.data <:+: ("generate.py failed.\nReturn code: " ++ toString rc ++
        "\nSTDOUT:\n" ++ out ++ "\nSTDERR:\n" ++ err).data ∧
    err.data <:+: ("generate.py failed.\nReturn code: " ++ toString rc ++
        "\nSTDOUT:\n" ++ out ++ "\nSTDERR:\n" ++ err).data := by
  refine ⟨?_, ?_, ?_, ?_⟩
  · simp only [metric, hcode, hmk, hwrite, hrun]
    simp [hrc]
  · exact ⟨("generate.py failed.\nReturn code: ").data,
      ("\nSTDOUT:\n" ++ out ++ "\nSTDERR:\n" ++ err).data,
      by simp [String.data_append]⟩
  · exact ⟨("generate.py failed.\nReturn code: " ++ toString rc ++ "\nSTDOUT:\n").data,
      ("\nSTDERR:\n" ++ err).data, by simp [String.data_append]⟩
  · exact ⟨("generate.py failed.\nReturn code: " ++ toString rc ++
      "\nSTDOUT:\n" ++ out ++ "\nSTDERR:\n").data, [], by simp [String.data_append]⟩

/-- Witness for claim C8 at a concrete failing run. -/
theorem metric_nonzero_exit_witness :
    (extractCode ((predFenced.program.getD ("")).data)).isEmpty = false ∧
    (∀ d, wFailRun.mkdir d = Except.ok ()) ∧
    wFailRun.writeScripts = Except.ok () ∧
    wFailRun.runScript = RunOutcome.completed 1 ("") ("boom") ∧
    (1 : Int) ≠ 0 ∧
    (metric wFailRun (some exR) predFenced = Except.ok ⟨0,
      "generate.py failed.\nReturn code: " ++ toString (1 : Int) ++
        "\nSTDOUT:\n" ++ ("") ++ "\nSTDERR:\n" ++ ("boom")⟩ ∧
    (toString (1 : Int)).data <:+: ("generate.py failed.\nReturn code: " ++ toString (1 : Int) ++
        "\nSTDOUT:\n" ++ ("") ++ "\nSTDERR:\n" ++ ("boom")).data ∧
    ("").data <:+: ("generate.py failed.\nReturn code: " ++ toString (1 : Int) ++
        "\nSTDOUT:\n" ++ ("") ++ "\nSTDERR:\n" ++ ("boom")).data ∧
    ("boom").data <:+: ("generate.py failed.\nReturn code: " ++ toString (1 : Int) ++
        "\nSTDOUT:\n" ++ ("") ++ "\nSTDERR:\n" ++ ("boom")).data) :=
  ⟨by decide, fun _ => rfl, rfl, rfl, by decide,
    metric_nonzero_exit wFailRun (some exR) predFenced 1 ("") ("boom")
      (by decide) (fun _ => rfl) rfl rfl (by decide)⟩

/-- Claim C9, amended. For every evaluation reaching the scoring stage
with a defined-or-not similarity, the score is 1 exactly when the
similarity value is at least the threshold, and the feedback always
reports the rendered numeric similarity; the rendered threshold and the
failure marker appear in the feedback only in the failing branch, and
the success marker only in the passing branch — the success feedback
does not report the threshold. -/
theorem metric_scoring_feedback (w : World) (ex : ExampleObj) (pred : PredictionIn)
    (out err : String)
    (hcode : (extractCode ((pred.program.getD ("")).data)).isEmpty = false)
    (hmk : w.mkdir (pathJoin ("runs") (extract_pid (some ex) ("unknown"))) = Except.ok ())
    (hwrite : w.writeScripts = Except.ok ())
    (hrun : w.runScript = RunOutcome.completed 0 out err)
    (hart : w.artifactExists = true) :
    ∃ p : ScoreResult, metric w (some ex) pred = Except.ok p ∧
      p.score = (if (w.similarity_threshold : ℝ) ≤
        (compute_similarity w.getEmb ex.image
          (artifactPath (pathJoin ("runs") (extract_pid (some ex) ("unknown"))))).1
        then 1 else 0) ∧
      (w.showSim (compute_similarity w.getEmb ex.image
        (artifactPath (pathJoin ("runs") (extract_pid (some ex) ("unknown"))))).1).data <:+:
        p.feedback.data ∧
      (p.score = 0 →
        (w.showQ w.similarity_threshold).data <:+: p.feedback.data ∧
        ("Evaluation failed").data <:+: p.feedback.data) ∧
      (p.score = 1 → ("Success!").data <:+: p.feedback.data) := by
  by_cases hle : (w.similarity_threshold : ℝ) ≤
      (compute_similarity w.getEmb ex.image
        (artifactPath (pathJoin ("runs") (extract_pid (some ex) ("unknown"))))).1
  · have hp : scoringResult w ex.image
        (artifactPath (pathJoin ("runs") (extract_pid (some ex) ("unknown")))) =
        ⟨1, "Similarity Score: " ++ w.showSim (compute_similarity w.getEmb ex.image
          (artifactPath (pathJoin ("runs") (extract_pid (some ex) ("unknown"))))).1 ++
          "\nSuccess!"⟩ := by
      rw [scoringResult_eq, if_pos hle, if_neg (by decide : ¬ ((1 : Int) = 0))]
    refine ⟨_, metric_scoring w ex pred out err hcode hmk hwrite hrun hart, ?_, ?_, ?_, ?_⟩
    · rw [hp, if_pos hle]
    · rw [hp]
      exact ⟨("Similarity Score: ").data, ("\nSuccess!").data, by simp [String.data_append]⟩
    · rw [hp]
      intro h0
      exact absurd h0 (by simp)
    · rw [hp]
      intro _
      have hsplit : ("\nSuccess!").data = ("\n").data ++ ("Success!").data := by decide
      refine ⟨("Similarity Score: ").data ++ (w.showSim (compute_similarity w.getEmb ex.image
        (artifactPath (pathJoin ("runs") (extract_pid (some ex) ("unknown"))))).1).data ++
        ("\n").data, [], ?_⟩
      simp [String.data_append, hsplit]
  · have hp : scoringResult w ex.image
        (artifactPath (pathJoin ("runs") (extract_pid (some ex) ("unknown")))) =
        ⟨0, "Similarity Score: " ++ w.showSim (compute_similarity w.getEmb ex.image
          (artifactPath (pathJoin ("runs") (extract_pid (some ex) ("unknown"))))).1 ++
          ("\nThreshold is " ++ w.showQ w.similarity_threshold ++
            ". Evaluation failed. Reason: " ++ (compute_similarity w.getEmb ex.image
              (artifactPath (pathJoin ("runs") (extract_pid (some ex) ("unknown"))))).2)⟩ := by
      rw [scoringResult_eq, if_neg hle]
      simp
    refine ⟨_, metric_scoring w ex pred out err hcode hmk hwrite hrun hart, ?_, ?_, ?_, ?_⟩
    · rw [hp, if_neg hle]
    · rw [hp]
      exact ⟨("Similarity Score: ").data,
        ("\nThreshold is " ++ w.showQ w.similarity_threshold ++
          ". Evaluation failed. Reason: " ++ (compute_similarity w.getEmb ex.image
            (artifactPath (pathJoin ("runs") (extract_pid (some ex) ("unknown"))))).2).data,
        by simp [String.data_append]⟩
    · rw [hp]
      intro _
      constructor
      · exact ⟨("Similarity Score: ").data ++ (w.showSim (compute_similarity w.getEmb ex.image
          (artifactPath (pathJoin ("runs") (extract_pid (some ex) ("unknown"))))).1).data ++
          ("\nThreshold is ").data,
          (". Evaluation failed. Reason: " ++ (compute_similarity w.getEmb ex.image
            (artifactPath (pathJoin ("runs") (extract_pid (some ex) ("unknown"))))).2).data,
          by simp [String.data_append]⟩
      · have hsplit : (". Evaluation failed. Reason: ").data =
            (". ").data ++ ("Evaluation failed").data ++ (". Reason: ").data := by decide
        exact ⟨("Similarity Score: ").data ++ (w.showSim (compute_similarity w.getEmb ex.image
          (artifactPath (pathJoin ("runs") (extract_pid (some ex) ("unknown"))))).1).data ++
          ("\nThreshold is ").data ++ (w.showQ w.similarity_threshold).data ++ (". ").data,
          (". Reason: ").data ++ ((compute_similarity w.getEmb ex.image
            (artifactPath (pathJoin ("runs") (extract_pid (some ex) ("unknown"))))).2).data,
          by simp [String.data_append, hsplit]⟩
    · rw [hp]
      intro h1
      exact absurd h1 (by simp)

/-- Witness for the amended claim C9 at a concrete passing evaluation. -/
theorem metric_scoring_feedback_witness :
    (extractCode ((predFenced.program.getD ("")).data)).isEmpty = false ∧
    wPass.mkdir (pathJoin ("runs") (extract_pid (some exR) ("unknown"))) = Except.ok () ∧
    wPass.writeScripts = Except.ok () ∧
    wPass.runScript = RunOutcome.completed 0 ("") ("") ∧
    wPass.artifactExists = true ∧
    (∃ p : ScoreResult, metric wPass (some exR) predFenced = Except.ok p ∧
      p.score = (if (wPass.similarity_threshold : ℝ) ≤
        (compute_similarity wPass.getEmb exR.image
          (artifactPath (pathJoin ("runs") (extract_pid (some exR) ("unknown"))))).1
        then 1 else 0) ∧
      (wPass.showSim (compute_similarity wPass.getEmb exR.image
        (artifactPath (pathJoin ("runs") (extract_pid (some exR) ("unknown"))))).1).data <:+:
        p.feedback.data ∧
      (p.score = 0 →
        (wPass.showQ wPass.similarity_threshold).data <:+: p.feedback.data ∧
        ("Evaluation failed").data <:+: p.feedback.data) ∧
      (p.score = 1 → ("Success!").data <:+: p.feedback.data)) :=
  ⟨by decide, rfl, rfl, rfl, rfl,
    metric_scoring_feedback wPass exR predFenced ("") ("") (by decide) rfl rfl rfl rfl⟩

/-- Claim C9, counterexample. A passing evaluation (identical unit
embeddings, threshold 0.6 rendered as the string 0.6) produces the
success feedback, which reports the similarity and the success marker
but not the threshold: the rendered threshold does not occur in the
feedback text. -/
theorem metric_success_feedback_cex :
    metric wPass (some exR) predFenced =
      Except.ok ⟨1, "Similarity Score: 1.0000\nSuccess!"⟩ ∧
    wPass.showQ wPass.similarity_threshold = "0.6" ∧
    ¬ ("0.6").data <:+: ("Similarity Score: 1.0000\nSuccess!").data := by
  refine ⟨?_, rfl, by decide⟩
  rw [metric_scoring wPass exR predFenced ("") ("") (by decide) rfl rfl rfl rfl]
  have e1 : wPass.getEmb exR.image = some [(1:ℚ)] := rfl
  have e2 : wPass.getEmb
      (artifactPath (pathJoin ("runs") (extract_pid (some exR) ("unknown")))) =
      some [(1:ℚ)] := rfl
  have hn : sumsq [(1:ℚ)] ≠ 0 := by rw [sumsq_single]; norm_num
  have hsm := sim_defined_val e1 e2 hn hn
  have hd : dot [(1:ℚ)] [(1:ℚ)] = 1 := by rw [dot_cons, dot_nil_left]; norm_num
  have hs1 : sumsq [(1:ℚ)] = 1 := by rw [sumsq_single]; norm_num
  have hnn : npNorm [(1:ℚ)] = 1 := by unfold npNorm; rw [hs1]; simp
  have hval : (compute_similarity wPass.getEmb exR.image
      (artifactPath (pathJoin ("runs") (extract_pid (some exR) ("unknown"))))).1 = 1 := by
    rw [hsm, hd, hnn]
    norm_num
  have hle : (wPass.similarity_threshold : ℝ) ≤
      (compute_similarity wPass.getEmb exR.image
        (artifactPath (pathJoin ("runs") (extract_pid (some exR) ("unknown"))))).1 := by
    rw [hval]
    have : wPass.similarity_threshold = 3/5 := rfl
    rw [this]
    norm_num
  have hres : scoringResult wPass exR.image
      (artifactPath (pathJoin ("runs") (extract_pid (some exR) ("unknown")))) =
      ⟨1, "Similarity Score: 1.0000\nSuccess!"⟩ := by
    rw [scoringResult_eq, if_pos hle, if_neg (by decide : ¬ ((1 : Int) = 0))]
    rfl
  rw [hres]
